import Mathlib

/-!
Verification of the seha-backend authentication and authorization layer.

The development shallowly embeds the logic-bearing fraction of the
repository: JWT issue/verify (auth-service `main.py`, medical-service and
scheduling-service `main.py`), the bcrypt password hasher wrappers
(auth-service `crud.py`), and the guarded endpoints for doctor profiles,
hospitals and appointments (medical-service and scheduling-service
`main.py` / `crud.py`).

Datetimes are embedded as integers (unix seconds); databases as lists of
rows with an autoincrement counter; HTTP failure responses as a record of
status code and detail string, mirroring FastAPI's `HTTPException`.
-/

set_option maxRecDepth 8192

namespace Seha

/-- Embedding of FastAPI's `HTTPException`: a status code plus detail string.
In this codebase 401 marks authentication failures, 403 authorization
failures, 400 validation failures and 404 not-found. -/
structure HTTPException where
  status_code : Nat
  detail : String
  deriving DecidableEq, Repr

/-! ## JWT model

A token is embedded as its decoded payload together with the secret and
algorithm it was signed under; signature checking is idealized as equality
of the verifier's configured secret/algorithm with the signing ones (an
HMAC forgery is assumed impossible). -/

/-- Claims carried by a token: the `sub` (email), `user_id` and `exp`
members of the JSON payload, each possibly absent. `exp` is a unix
timestamp in seconds. -/
structure JwtPayload where
  sub : Option String
  user_id : Option Int
  exp : Option Int
  deriving DecidableEq, Repr

/-- A signed token: the payload plus the key and algorithm of its
signature (idealized HMAC: verification succeeds exactly under the same
key and algorithm). -/
structure Jwt where
  payload : JwtPayload
  sigSecret : String
  sigAlg : String
  deriving DecidableEq, Repr

/-- Error outcomes of PyJWT's `jwt.decode`, as caught by the services. -/
inductive JwtError where
  | ExpiredSignatureError
  | InvalidTokenError
  deriving DecidableEq, Repr

/-- Embedding of `jwt.decode(token, key, algorithms=algs)` evaluated at
time `now`: the signature must verify under `key` with an algorithm in
`algs`; then, when an `exp` claim is present, PyJWT raises
`ExpiredSignatureError` exactly when `exp <= now` (zero leeway). -/
def jwt_decode (token : Jwt) (key : String) (algs : List String) (now : Int) :
    Except JwtError JwtPayload :=
  if token.sigSecret = key ∧ token.sigAlg ∈ algs then
    match token.payload.exp with
    | some e => if e ≤ now then .error .ExpiredSignatureError else .ok token.payload
    | none => .ok token.payload
  else .error .InvalidTokenError

/-- The algorithm hard-coded as `JWT_ALGORITHM = "HS256"` in the
medical-service and scheduling-service configuration. -/
def JWT_ALGORITHM : String := "HS256"

/-- Embedding of auth-service `create_access_token(data, expires_delta)`
evaluated at time `now`, parameterized by the issuer's configured
`SECRET_KEY` and `ALGORITHM`: copies `data`, sets `exp := now +
expires_delta` (default 15 minutes), and signs with the issuer's secret
and algorithm. `expires_delta` is in seconds. -/
def create_access_token (secret_key algorithm : String) (data : JwtPayload)
    (now : Int) (expires_delta : Option Int) : Jwt :=
  let expire : Int :=
    match expires_delta with
    | some d => now + d
    | none => now + 15 * 60
  { payload := { data with exp := some expire },
    sigSecret := secret_key, sigAlg := algorithm }

/-- Embedding of `verify_token` as replicated in medical-service and
scheduling-service `main.py`: decode under the locally configured
`JWT_SECRET` and the fixed algorithm list `["HS256"]`, turning
`ExpiredSignatureError` and `InvalidTokenError` into 401 responses. -/
def verify_token (jwt_secret : String) (now : Int) (token : Jwt) :
    Except HTTPException JwtPayload :=
  match jwt_decode token jwt_secret [JWT_ALGORITHM] now with
  | .ok payload => .ok payload
  | .error .ExpiredSignatureError => .error ⟨401, "Token has expired"⟩
  | .error .InvalidTokenError => .error ⟨401, "Invalid token"⟩

/-- Embedding of `get_current_user_id`: reads `payload.get("user_id")` and
raises 401 when the value is falsy in Python's sense — absent, or the
integer `0`. -/
def get_current_user_id (token_payload : JwtPayload) : Except HTTPException Int :=
  match token_payload.user_id with
  | none => .error ⟨401, "Invalid token payload"⟩
  | some uid =>
    if uid = 0 then .error ⟨401, "Invalid token payload"⟩ else .ok uid

/-- The verification pipeline a protected endpoint runs through its
dependencies: `verify_token` followed by `get_current_user_id`. -/
def authenticate (jwt_secret : String) (now : Int) (token : Jwt) :
    Except HTTPException Int :=
  match verify_token jwt_secret now token with
  | .error e => .error e
  | .ok payload => get_current_user_id payload

/-! ## Password hasher (auth-service `crud.py`)

The passlib bcrypt backend is external; it is embedded at its API
boundary. A digest value is either a well-formed bcrypt digest — recording
its salt and, idealizing the collision-resistant bcrypt core as injective,
the key string it was computed over — or an arbitrary string no configured
scheme recognizes, on which passlib's `CryptContext.verify` raises
`UnknownHashError` (a `ValueError`). -/

/-- A stored digest string, classified as passlib classifies it. -/
inductive PasslibDigest where
  | bcrypt (salt : String) (key : String)
  | unrecognized (raw : String)
  deriving DecidableEq, Repr

/-- Exception raised by passlib when the digest matches no configured
scheme. -/
inductive PasslibError where
  | UnknownHashError
  deriving DecidableEq, Repr

/-- Embedding of `pwd_context.hash(secret)` with the fresh random salt
made explicit: produces a bcrypt digest over `secret` under `salt`. -/
def pwd_context_hash (salt secret : String) : PasslibDigest :=
  .bcrypt salt secret

/-- Embedding of `pwd_context.verify(secret, digest)`: for a bcrypt digest
it recomputes the bcrypt core over `secret` with the stored salt and
compares (under the injective idealization, equal outputs iff equal keys);
for an unrecognized digest it raises `UnknownHashError`. -/
def pwd_context_verify (secret : String) : PasslibDigest → Except PasslibError Bool
  | .bcrypt _ key => .ok (key == secret)
  | .unrecognized _ => .error .UnknownHashError

/-- Embedding of auth-service `get_password_hash(password)`: hashes
`password[:72]` — the first 72 characters. -/
def get_password_hash (salt password : String) : PasslibDigest :=
  pwd_context_hash salt (password.take 72)

/-- Embedding of auth-service `verify_password(plain_password,
hashed_password)`: verifies `plain_password[:72]` against the stored
digest; any passlib exception propagates. -/
def verify_password (plain_password : String) (hashed_password : PasslibDigest) :
    Except PasslibError Bool :=
  pwd_context_verify (plain_password.take 72) hashed_password

/-! ## Medical service data model (`medical-service/models.py`, `schemas.py`)

Only the columns the verified endpoints read or write are carried;
datetimes are unix seconds. -/

/-- Row of the `doctors` table. -/
structure Doctor where
  doctor_id : Int
  user_id : Int
  specialization : String
  license_number : String
  hospital_id : Int
  qualifications : Option String
  years_experience : Option Int
  availability_schedule : Option String
  is_available_online : Bool
  created_at : Int
  deriving DecidableEq, Repr

/-- Request body of `POST /doctors` (`schemas.DoctorCreate`). -/
structure DoctorCreate where
  user_id : Int
  specialization : String
  license_number : String
  hospital_id : Int
  qualifications : Option String
  years_experience : Option Int
  availability_schedule : Option String
  is_available_online : Bool
  deriving DecidableEq, Repr

/-- Row of the `hospitals` table. -/
structure Hospital where
  hospital_id : Int
  name : String
  address : String
  city : String
  phone : Option String
  departments : Option String
  working_hours : Option String
  has_emergency : Bool
  is_government : Bool
  created_at : Int
  deriving DecidableEq, Repr

/-- Request body of `POST /hospitals` (`schemas.HospitalCreate`). -/
structure HospitalCreate where
  name : String
  address : String
  city : String
  phone : Option String
  departments : Option String
  working_hours : Option String
  has_emergency : Bool
  is_government : Bool
  deriving DecidableEq, Repr

/-- State of the medical service's datastore: table contents in insertion
order plus the autoincrement counters. -/
structure MedicalDB where
  doctors : List Doctor
  hospitals : List Hospital
  next_doctor_id : Int
  next_hospital_id : Int
  deriving DecidableEq, Repr

/-- Embedding of medical-service `crud.get_doctor_by_user_id`: first row
of `doctors` whose `user_id` matches. -/
def get_doctor_by_user_id (db : MedicalDB) (user_id : Int) : Option Doctor :=
  db.doctors.find? (fun d => d.user_id == user_id)

/-- Embedding of medical-service `crud.create_doctor`: inserts a new row
built from the request body, the autoincrement primary key and the
`created_at` default. -/
def crud_create_doctor (db : MedicalDB) (doctor : DoctorCreate) (now : Int) :
    Doctor × MedicalDB :=
  let d : Doctor :=
    { doctor_id := db.next_doctor_id
      user_id := doctor.user_id
      specialization := doctor.specialization
      license_number := doctor.license_number
      hospital_id := doctor.hospital_id
      qualifications := doctor.qualifications
      years_experience := doctor.years_experience
      availability_schedule := doctor.availability_schedule
      is_available_online := doctor.is_available_online
      created_at := now }
  (d, { db with doctors := db.doctors ++ [d],
                next_doctor_id := db.next_doctor_id + 1 })

/-- Embedding of the `POST /doctors` handler `create_doctor`: a 400 when a
profile already exists for the payload's `user_id`, then a 403 when the
payload's `user_id` is not the authenticated caller's; only the success
path touches the store. -/
def create_doctor (doctor : DoctorCreate) (current_user_id : Int) (now : Int)
    (db : MedicalDB) : Except HTTPException Doctor × MedicalDB :=
  if (get_doctor_by_user_id db doctor.user_id).isSome then
    (.error ⟨400, "Doctor profile already exists"⟩, db)
  else if doctor.user_id ≠ current_user_id then
    (.error ⟨403, "Forbidden: You can only create your own profile"⟩, db)
  else
    let (d, db2) := crud_create_doctor db doctor now
    (.ok d, db2)

/-- Embedding of medical-service `crud.create_hospital`. -/
def crud_create_hospital (db : MedicalDB) (hospital : HospitalCreate) (now : Int) :
    Hospital × MedicalDB :=
  let h : Hospital :=
    { hospital_id := db.next_hospital_id
      name := hospital.name
      address := hospital.address
      city := hospital.city
      phone := hospital.phone
      departments := hospital.departments
      working_hours := hospital.working_hours
      has_emergency := hospital.has_emergency
      is_government := hospital.is_government
      created_at := now }
  (h, { db with hospitals := db.hospitals ++ [h],
                next_hospital_id := db.next_hospital_id + 1 })

/-- Embedding of an HTTP request to `POST /hospitals`: the handler
`create_hospital(hospital, db)` declares no security dependency, so the
bearer credentials attached to the request (`auth`, possibly absent) are
never inspected and the row is inserted unconditionally. -/
def create_hospital_request (auth : Option Jwt) (hospital : HospitalCreate)
    (now : Int) (db : MedicalDB) : Except HTTPException Hospital × MedicalDB :=
  let (h, db2) := crud_create_hospital db hospital now
  (.ok h, db2)

/-! ## Scheduling service data model (`scheduling-service/models.py`,
`schemas.py`, `crud.py`) -/

/-- Row of the `appointments` table. -/
structure Appointment where
  appointment_id : Int
  user_id : Int
  doctor_id : Int
  hospital_id : Int
  appointment_datetime : Int
  status : String
  reason_for_visit : Option String
  patient_notes : Option String
  created_at : Int
  updated_at : Int
  deriving DecidableEq, Repr

/-- Request body of `POST /appointments` (`schemas.AppointmentCreate`). -/
structure AppointmentCreate where
  doctor_id : Int
  hospital_id : Int
  appointment_datetime : Int
  reason_for_visit : Option String
  patient_notes : Option String
  deriving DecidableEq, Repr

/-- State of the scheduling service's datastore. -/
structure SchedDB where
  appointments : List Appointment
  next_appointment_id : Int
  deriving DecidableEq, Repr

/-- Embedding of scheduling-service `crud.create_appointment`: inserts a
row owned by `user_id` with status `"scheduled"`. -/
def crud_create_appointment (db : SchedDB) (appointment : AppointmentCreate)
    (user_id : Int) (now : Int) : Appointment × SchedDB :=
  let a : Appointment :=
    { appointment_id := db.next_appointment_id
      user_id := user_id
      doctor_id := appointment.doctor_id
      hospital_id := appointment.hospital_id
      appointment_datetime := appointment.appointment_datetime
      status := "scheduled"
      reason_for_visit := appointment.reason_for_visit
      patient_notes := appointment.patient_notes
      created_at := now
      updated_at := now }
  (a, { db with appointments := db.appointments ++ [a],
                next_appointment_id := db.next_appointment_id + 1 })

/-- Embedding of the `POST /appointments` handler `create_appointment`:
rejects with a 400 when `appointment.appointment_datetime <
datetime.utcnow()`, otherwise persists via the crud layer. -/
def create_appointment_ep (appointment : AppointmentCreate)
    (current_user_id : Int) (now : Int) (db : SchedDB) :
    Except HTTPException Appointment × SchedDB :=
  if appointment.appointment_datetime < now then
    (.error ⟨400, "Appointment datetime must be in the future"⟩, db)
  else
    let (a, db2) := crud_create_appointment db appointment current_user_id now
    (.ok a, db2)

/-- Embedding of scheduling-service `crud.get_appointment_by_id`: first
row matching both the appointment id and the requesting user's id — the
ownership check is this query filter. -/
def get_appointment_by_id (db : SchedDB) (appointment_id user_id : Int) :
    Option Appointment :=
  db.appointments.find?
    (fun a => a.appointment_id == appointment_id && a.user_id == user_id)

/-- Update of the single fetched row inside the table: replaces the first
row matching the filter of `get_appointment_by_id` by `f` applied to it. -/
def set_first_matching (appointment_id user_id : Int)
    (f : Appointment → Appointment) : List Appointment → List Appointment
  | [] => []
  | a :: rest =>
    if a.appointment_id == appointment_id && a.user_id == user_id then
      f a :: rest
    else
      a :: set_first_matching appointment_id user_id f rest

/-- Embedding of scheduling-service `crud.cancel_appointment`: fetch by id
and owner; when absent return `none` leaving the store untouched,
otherwise set `status = "cancelled"` and refresh `updated_at`. -/
def crud_cancel_appointment (db : SchedDB) (appointment_id user_id : Int)
    (now : Int) : Option Appointment × SchedDB :=
  match get_appointment_by_id db appointment_id user_id with
  | none => (none, db)
  | some a =>
    let cancel := fun (b : Appointment) =>
      { b with status := "cancelled", updated_at := now }
    let appts := set_first_matching appointment_id user_id cancel db.appointments
    (some (cancel a), { db with appointments := appts })

/-- Embedding of the `PATCH /appointments/\x7bid\x7d/cancel` handler
`cancel_appointment`: a `None` from the crud layer surfaces as a 404. -/
def cancel_appointment_ep (appointment_id current_user_id : Int) (now : Int)
    (db : SchedDB) : Except HTTPException Appointment × SchedDB :=
  let (res, db2) := crud_cancel_appointment db appointment_id current_user_id now
  match res with
  | none => (.error ⟨404, "Appointment not found"⟩, db2)
  | some a => (.ok a, db2)

/-- Embedding of `datetime.replace(hour=23, minute=59, second=59)` on a
unix-seconds datetime: same day, last second. -/
def end_of_day (date : Int) : Int := (date / 86400) * 86400 + 86399

/-- Embedding of scheduling-service `crud.get_doctor_appointments`: all
rows for `doctor_id`, optionally restricted to the day of `date` and to a
status, ordered by `appointment_datetime` ascending. The rows returned
carry the patients' `user_id`, `reason_for_visit` and `patient_notes`. -/
def crud_get_doctor_appointments (db : SchedDB) (doctor_id : Int)
    (date : Option Int) (status : Option String) : List Appointment :=
  let q1 := db.appointments.filter (fun a => a.doctor_id == doctor_id)
  let q2 :=
    match date with
    | some d => q1.filter (fun (a : Appointment) =>
        decide (d ≤ a.appointment_datetime)
          && decide (a.appointment_datetime < end_of_day d))
    | none => q1
  let q3 :=
    match status with
    | some s => q2.filter (fun (a : Appointment) => a.status == s)
    | none => q2
  q3.mergeSort (fun (a b : Appointment) =>
    decide (a.appointment_datetime ≤ b.appointment_datetime))

/-- Embedding of an HTTP request to `GET /doctors/\x7bdoctor_id\x7d/appointments`:
the handler depends on `get_current_user_id` (the caller must
authenticate) but passes only `doctor_id`, `date` and `status` to the crud
layer — the authenticated identity is never consulted. -/
def get_doctor_appointments_request (jwt_secret : String) (now : Int)
    (token : Jwt) (doctor_id : Int) (date : Option Int) (status : Option String)
    (db : SchedDB) : Except HTTPException (List Appointment) :=
  match authenticate jwt_secret now token with
  | .error e => .error e
  | .ok _current_user_id => .ok (crud_get_doctor_appointments db doctor_id date status)

/-! ## Lemmas on the verification pipeline -/

lemma authenticate_sig_fail (secret : String) (now : Int) (token : Jwt)
    (h : ¬ (token.sigSecret = secret ∧ token.sigAlg = JWT_ALGORITHM)) :
    authenticate secret now token = .error ⟨401, "Invalid token"⟩ := by
  simp [authenticate, verify_token, jwt_decode, h]

lemma authenticate_expired (secret : String) (now : Int) (token : Jwt) (e : Int)
    (h1 : token.sigSecret = secret) (h2 : token.sigAlg = JWT_ALGORITHM)
    (hexp : token.payload.exp = some e) (hle : e ≤ now) :
    authenticate secret now token = .error ⟨401, "Token has expired"⟩ := by
  unfold authenticate verify_token jwt_decode
  rw [if_pos ⟨h1, by simp [h2]⟩, hexp]
  simp [hle]

lemma authenticate_valid (secret : String) (now : Int) (token : Jwt)
    (h1 : token.sigSecret = secret) (h2 : token.sigAlg = JWT_ALGORITHM)
    (hexp : ∀ e, token.payload.exp = some e → ¬ e ≤ now) :
    authenticate secret now token = get_current_user_id token.payload := by
  unfold authenticate verify_token jwt_decode
  rw [if_pos ⟨h1, by simp [h2]⟩]
  cases hx : token.payload.exp with
  | none => rfl
  | some e => simp [hexp e hx]

lemma authenticate_cases (secret : String) (now : Int) (token : Jwt) :
    authenticate secret now token = .error ⟨401, "Invalid token"⟩
    ∨ (∃ e, token.payload.exp = some e ∧ e ≤ now
        ∧ authenticate secret now token = .error ⟨401, "Token has expired"⟩)
    ∨ ((token.sigSecret = secret ∧ token.sigAlg = JWT_ALGORITHM)
        ∧ (∀ e, token.payload.exp = some e → now < e)
        ∧ authenticate secret now token = get_current_user_id token.payload) := by
  by_cases hsig : token.sigSecret = secret ∧ token.sigAlg = JWT_ALGORITHM
  · rcases hexp : token.payload.exp with _ | e
    · refine Or.inr (Or.inr ⟨hsig, ?_, ?_⟩)
      · intro f hf
        cases hf
      · refine authenticate_valid secret now token hsig.1 hsig.2 ?_
        intro f hf
        rw [hexp] at hf
        cases hf
    · by_cases hle : e ≤ now
      · exact Or.inr (Or.inl ⟨e, rfl, hle,
          authenticate_expired secret now token e hsig.1 hsig.2 hexp hle⟩)
      · refine Or.inr (Or.inr ⟨hsig, ?_, ?_⟩)
        · intro f hf
          cases hf
          omega
        · refine authenticate_valid secret now token hsig.1 hsig.2 ?_
          intro f hf
          rw [hexp] at hf
          cases hf
          exact hle
  · exact Or.inl (authenticate_sig_fail secret now token hsig)

lemma authenticate_ok_inv (secret : String) (now : Int) (token : Jwt) (uid : Int)
    (h : authenticate secret now token = .ok uid) :
    token.sigSecret = secret ∧ token.sigAlg = JWT_ALGORITHM
    ∧ (∀ e, token.payload.exp = some e → now < e)
    ∧ token.payload.user_id = some uid ∧ uid ≠ 0 := by
  rcases authenticate_cases secret now token with hc | ⟨e, _, _, hc⟩ | ⟨⟨h1, h2⟩, hlt, hc⟩
  · rw [hc] at h; cases h
  · rw [hc] at h; cases h
  · rw [hc] at h
    unfold get_current_user_id at h
    rcases hu : token.payload.user_id with _ | u
    · rw [hu] at h
      exact Except.noConfusion h
    · rw [hu] at h
      have h3 : (if u = 0 then
            (.error ⟨401, "Invalid token payload"⟩ : Except HTTPException Int)
          else .ok u) = .ok uid := h
      by_cases hz : u = 0
      · rw [if_pos hz] at h3
        exact Except.noConfusion h3
      · rw [if_neg hz] at h3
        cases h3
        exact ⟨h1, h2, hlt, rfl, hz⟩

/-! ## Claims about token issuance and verification -/

/-- C1: a token produced by the issuer's `create_access_token` with claims
`sub = email` and `user_id` and expiry `now + ttl`, decoded by a resource
service's `verify_token` under the same shared secret and algorithm at any
time strictly before the expiry instant, succeeds and yields a payload
whose `sub` is the issued email and whose `user_id` is the issued id. -/
theorem C1_token_issue_verify_round_trip (secret email : String) (uid : Int)
    (ttl now t : Int) (httl : 0 < ttl) (ht : t < now + ttl) :
    ∃ payload,
      verify_token secret t
          (create_access_token secret JWT_ALGORITHM
            { sub := some email, user_id := some uid, exp := none } now (some ttl))
        = .ok payload
      ∧ payload.sub = some email ∧ payload.user_id = some uid := by
  refine ⟨{ sub := some email, user_id := some uid, exp := some (now + ttl) },
    ?_, rfl, rfl⟩
  have hlt : ¬ (now + ttl ≤ t) := by omega
  simp [verify_token, jwt_decode, create_access_token, JWT_ALGORITHM, hlt]

/-- Witness for C1 at a concrete issuance. -/
theorem C1_token_issue_verify_round_trip_witness :
    ∃ payload,
      verify_token "k" 100
          (create_access_token "k" JWT_ALGORITHM
            { sub := some "a@b.c", user_id := some 7, exp := none } 100 (some 60))
        = .ok payload
      ∧ payload.sub = some "a@b.c" ∧ payload.user_id = some 7 :=
  C1_token_issue_verify_round_trip "k" "a@b.c" 7 60 100 100 (by decide) (by decide)

/-- C2: the pipeline `verify_token` then `get_current_user_id` returns a
`user_id` only for a token signed under the locally configured secret and
algorithm, unexpired, and carrying that `user_id` claim; an expired token,
a token signed under a different secret, and a token lacking the `user_id`
claim are all rejected with a 401 authentication failure, never a 403. -/
theorem C2_verification_pipeline (secret : String) (now : Int) :
    (∀ (token : Jwt) (uid : Int), authenticate secret now token = .ok uid →
      token.sigSecret = secret ∧ token.sigAlg = JWT_ALGORITHM
        ∧ (∀ e, token.payload.exp = some e → now < e)
        ∧ token.payload.user_id = some uid)
    ∧ (∀ (token : Jwt) (e : Int), token.payload.exp = some e → e ≤ now →
        ∃ err, authenticate secret now token = .error err ∧ err.status_code = 401)
    ∧ (∀ (token : Jwt), token.sigSecret ≠ secret →
        ∃ err, authenticate secret now token = .error err ∧ err.status_code = 401)
    ∧ (∀ (token : Jwt), token.payload.user_id = none →
        ∃ err, authenticate secret now token = .error err ∧ err.status_code = 401) := by
  refine ⟨?_, ?_, ?_, ?_⟩
  · intro token uid h
    obtain ⟨h1, h2, hlt, hu, _⟩ := authenticate_ok_inv secret now token uid h
    exact ⟨h1, h2, hlt, hu⟩
  · intro token e hexp hle
    rcases authenticate_cases secret now token with hc | ⟨f, _, _, hc⟩ | ⟨_, hlt, _⟩
    · exact ⟨⟨401, "Invalid token"⟩, hc, rfl⟩
    · exact ⟨⟨401, "Token has expired"⟩, hc, rfl⟩
    · exact absurd hle (by have := hlt e hexp; omega)
  · intro token hne
    refine ⟨⟨401, "Invalid token"⟩, authenticate_sig_fail secret now token ?_, rfl⟩
    intro hsig
    exact hne hsig.1
  · intro token hu
    rcases authenticate_cases secret now token with hc | ⟨f, _, _, hc⟩ | ⟨_, _, hc⟩
    · exact ⟨⟨401, "Invalid token"⟩, hc, rfl⟩
    · exact ⟨⟨401, "Token has expired"⟩, hc, rfl⟩
    · refine ⟨⟨401, "Invalid token payload"⟩, ?_, rfl⟩
      rw [hc]
      unfold get_current_user_id
      rw [hu]

/-- Witness for C2, exercising each conjunct at a concrete token. -/
theorem C2_verification_pipeline_witness :
    (Jwt.mk ⟨some "a", some 7, some 200⟩ "k" "HS256").payload.user_id = some 7
    ∧ (∃ err, authenticate "k" 100 ⟨⟨some "a", some 7, some 50⟩, "k", "HS256"⟩
        = .error err ∧ err.status_code = 401)
    ∧ (∃ err, authenticate "k" 100 ⟨⟨some "a", some 7, some 200⟩, "w", "HS256"⟩
        = .error err ∧ err.status_code = 401)
    ∧ (∃ err, authenticate "k" 100 ⟨⟨some "a", none, some 200⟩, "k", "HS256"⟩
        = .error err ∧ err.status_code = 401) :=
  ⟨((C2_verification_pipeline "k" 100).1 ⟨⟨some "a", some 7, some 200⟩, "k", "HS256"⟩ 7 rfl).2.2.2,
   (C2_verification_pipeline "k" 100).2.1 ⟨⟨some "a", some 7, some 50⟩, "k", "HS256"⟩ 50 rfl (by decide),
   (C2_verification_pipeline "k" 100).2.2.1 ⟨⟨some "a", some 7, some 200⟩, "w", "HS256"⟩ (by decide),
   (C2_verification_pipeline "k" 100).2.2.2 ⟨⟨some "a", none, some 200⟩, "k", "HS256"⟩ rfl⟩

/-- C10: a well-signed, unexpired token whose `user_id` claim is present
but equal to `0` is rejected with a 401 by the pipeline — `if not user_id`
treats the falsy integer `0` like an absent claim — and consequently no
caller is ever authenticated as user `0`. -/
theorem C10_user_id_zero_rejected (secret : String) (now : Int) (token : Jwt)
    (e : Int) (h1 : token.sigSecret = secret) (h2 : token.sigAlg = JWT_ALGORITHM)
    (hexp : token.payload.exp = some e) (hlt : now < e)
    (huid : token.payload.user_id = some 0) :
    authenticate secret now token = .error ⟨401, "Invalid token payload"⟩
    ∧ ∀ (t2 : Jwt), authenticate secret now t2 ≠ .ok 0 := by
  constructor
  · rw [authenticate_valid secret now token h1 h2
      (fun f hf => by rw [hexp] at hf; cases hf; omega)]
    unfold get_current_user_id
    rw [huid]
    rfl
  · intro t2 h
    exact (authenticate_ok_inv secret now t2 0 h).2.2.2.2 rfl

/-- Witness for C10 at a concrete token carrying `user_id = 0`. -/
theorem C10_user_id_zero_rejected_witness :
    authenticate "k" 100 ⟨⟨some "a", some 0, some 200⟩, "k", "HS256"⟩
      = .error ⟨401, "Invalid token payload"⟩ :=
  (C10_user_id_zero_rejected "k" 100 ⟨⟨some "a", some 0, some 200⟩, "k", "HS256"⟩
    200 rfl rfl rfl (by decide) rfl).1

/-! ## Claims about the password hasher -/

/-- C3: hash/verify round-trip with truncation symmetry — every secret
verifies against its own hash; a candidate agreeing with the hashed secret
on the first 72 characters verifies true; a candidate differing there
verifies false. -/
theorem C3_password_truncation_symmetry (salt s s2 : String) :
    verify_password s (get_password_hash salt s) = .ok true
    ∧ (s2.take 72 = s.take 72 →
        verify_password s2 (get_password_hash salt s) = .ok true)
    ∧ (s2.take 72 ≠ s.take 72 →
        verify_password s2 (get_password_hash salt s) = .ok false) := by
  unfold verify_password get_password_hash pwd_context_hash pwd_context_verify
  refine ⟨by simp, fun h => by simp [h], fun h => ?_⟩
  simp only [Except.ok.injEq, beq_eq_false_iff_ne, ne_eq]
  exact fun hq => h hq.symm

/-- Witness for C3 at concrete secrets, one matching and one differing
within the first 72 characters. -/
theorem C3_password_truncation_symmetry_witness :
    verify_password "pw1" (get_password_hash "saltA" "pw1") = .ok true
    ∧ verify_password "pw2" (get_password_hash "saltA" "pw2") = .ok true
    ∧ verify_password "pwX" (get_password_hash "saltA" "pw2") = .ok false :=
  ⟨(C3_password_truncation_symmetry "saltA" "pw1" "pw1").1,
   (C3_password_truncation_symmetry "saltA" "pw2" "pw2").2.1 rfl,
   (C3_password_truncation_symmetry "saltA" "pw2" "pwX").2.2 (by decide)⟩

/-- C4 counterexample: `verify_password` delegates straight to passlib's
`CryptContext.verify`, which raises `UnknownHashError` on a digest string
recognized by no configured scheme — it does not return false. -/
theorem C4_counterexample :
    verify_password "pw" (PasslibDigest.unrecognized "notahash")
      = .error .UnknownHashError := rfl

/-- C4 amended: for a well-formed bcrypt digest, `verify_password` never
raises and returns false exactly on mismatch of the truncated secret; for
a malformed digest it propagates passlib's `UnknownHashError` instead of
returning false. -/
theorem C4_verify_error_behavior (plain salt key raw : String) :
    verify_password plain (PasslibDigest.bcrypt salt key)
      = .ok (key == plain.take 72)
    ∧ verify_password plain (PasslibDigest.unrecognized raw)
      = .error .UnknownHashError :=
  ⟨rfl, rfl⟩

/-! ## Claims about the guarded endpoints -/

/-- C5: creating a doctor profile succeeds exactly when the payload's
`user_id` is the authenticated caller's and no profile exists for that
`user_id`; when a profile already exists the request is denied and the
store is unchanged. -/
theorem C5_create_doctor_guard (doctor : DoctorCreate) (uid now : Int)
    (db : MedicalDB) :
    ((∃ d db2, create_doctor doctor uid now db = (.ok d, db2))
        ↔ (doctor.user_id = uid ∧ get_doctor_by_user_id db doctor.user_id = none))
    ∧ (∀ d0, get_doctor_by_user_id db doctor.user_id = some d0 →
        create_doctor doctor uid now db
          = (.error ⟨400, "Doctor profile already exists"⟩, db)) := by
  refine ⟨⟨?_, ?_⟩, ?_⟩
  · rintro ⟨d, db2, h⟩
    unfold create_doctor at h
    by_cases hex : (get_doctor_by_user_id db doctor.user_id).isSome
    · rw [if_pos hex] at h
      exact absurd h (by simp)
    · rw [if_neg hex] at h
      by_cases hne : doctor.user_id ≠ uid
      · rw [if_pos hne] at h
        exact absurd h (by simp)
      · push_neg at hne
        exact ⟨hne, Option.not_isSome_iff_eq_none.mp hex⟩
  · rintro ⟨heq, hnone⟩
    unfold create_doctor
    rw [if_neg (by simp [hnone]), if_neg (by simp [heq])]
    exact ⟨_, _, rfl⟩
  · intro d0 h0
    unfold create_doctor
    rw [if_pos (by simp [h0])]

/-- Witness for C5: creation succeeds on an empty store for a matching
`user_id`, and is denied unchanged when a profile already exists. -/
theorem C5_create_doctor_guard_witness :
    (∃ d db2,
      create_doctor ⟨5, "C", "L", 2, none, none, none, false⟩ 5 0 ⟨[], [], 1, 1⟩
        = (.ok d, db2))
    ∧ create_doctor ⟨5, "C", "L", 2, none, none, none, false⟩ 5 0
        ⟨[⟨1, 5, "C", "L", 2, none, none, none, false, 0⟩], [], 2, 1⟩
      = (.error ⟨400, "Doctor profile already exists"⟩,
         ⟨[⟨1, 5, "C", "L", 2, none, none, none, false, 0⟩], [], 2, 1⟩) :=
  ⟨(C5_create_doctor_guard ⟨5, "C", "L", 2, none, none, none, false⟩ 5 0
      ⟨[], [], 1, 1⟩).1.mpr ⟨rfl, rfl⟩,
   (C5_create_doctor_guard ⟨5, "C", "L", 2, none, none, none, false⟩ 5 0
      ⟨[⟨1, 5, "C", "L", 2, none, none, none, false, 0⟩], [], 2, 1⟩).2
     ⟨1, 5, "C", "L", 2, none, none, none, false, 0⟩ rfl⟩

/-- C6 counterexample: a request to create a hospital carrying no bearer
token at all succeeds and persists the row — the handler declares no
authentication dependency, so nothing fails before business logic runs. -/
theorem C6_counterexample :
    create_hospital_request none ⟨"H", "A", "C", none, none, none, false, false⟩
        0 ⟨[], [], 1, 1⟩
      = (.ok ⟨1, "H", "A", "C", none, none, none, false, false, 0⟩,
         ⟨[], [⟨1, "H", "A", "C", none, none, none, false, false, 0⟩], 1, 2⟩) := rfl

/-- C6 amended: `create_hospital` is an unprotected operation — the
outcome is identical for any two credentials (absent, malformed or valid,
of any role), and every request succeeds, appending the new hospital. -/
theorem C6_create_hospital_unprotected (auth auth2 : Option Jwt)
    (hospital : HospitalCreate) (now : Int) (db : MedicalDB) :
    create_hospital_request auth hospital now db
      = create_hospital_request auth2 hospital now db
    ∧ ∃ h db2, create_hospital_request auth hospital now db = (.ok h, db2)
        ∧ db2.hospitals = db.hospitals ++ [h] :=
  ⟨rfl, ⟨_, _, rfl, rfl⟩⟩

/-- C7 counterexample: an appointment whose `appointment_datetime` equals
the request time — hence not strictly in the future — is accepted and
persisted, because the guard only rejects `appointment_datetime < now`. -/
theorem C7_counterexample :
    create_appointment_ep ⟨1, 1, 100, none, none⟩ 5 100 ⟨[], 1⟩
      = (.ok ⟨1, 5, 1, 1, 100, "scheduled", none, none, 100, 100⟩,
         ⟨[⟨1, 5, 1, 1, 100, "scheduled", none, none, 100, 100⟩], 2⟩) := rfl

/-- C7 amended: a strictly past `appointment_datetime` is rejected with
the 400 validation failure and the store is unchanged; any datetime at or
after the request time is accepted, appending a `"scheduled"` appointment
owned by the caller. -/
theorem C7_past_datetime_rejected (appointment : AppointmentCreate)
    (uid now : Int) (db : SchedDB) :
    (appointment.appointment_datetime < now →
      create_appointment_ep appointment uid now db
        = (.error ⟨400, "Appointment datetime must be in the future"⟩, db))
    ∧ (now ≤ appointment.appointment_datetime →
        ∃ a db2, create_appointment_ep appointment uid now db = (.ok a, db2)
          ∧ db2.appointments = db.appointments ++ [a]
          ∧ a.user_id = uid ∧ a.status = "scheduled"
          ∧ a.appointment_datetime = appointment.appointment_datetime) := by
  constructor
  · intro h
    unfold create_appointment_ep
    rw [if_pos h]
  · intro h
    unfold create_appointment_ep
    rw [if_neg (not_lt.mpr h)]
    exact ⟨_, _, rfl, rfl, rfl, rfl, rfl⟩

/-- Witness for C7 amended, at a past and at a future datetime. -/
theorem C7_past_datetime_rejected_witness :
    create_appointment_ep ⟨1, 1, 50, none, none⟩ 5 100 ⟨[], 1⟩
      = (.error ⟨400, "Appointment datetime must be in the future"⟩, ⟨[], 1⟩)
    ∧ ∃ a db2, create_appointment_ep ⟨1, 1, 300, none, none⟩ 5 100 ⟨[], 1⟩
        = (.ok a, db2)
        ∧ db2.appointments = ([] : List Appointment) ++ [a]
        ∧ a.user_id = 5 ∧ a.status = "scheduled" ∧ a.appointment_datetime = 300 :=
  ⟨(C7_past_datetime_rejected ⟨1, 1, 50, none, none⟩ 5 100 ⟨[], 1⟩).1 (by decide),
   (C7_past_datetime_rejected ⟨1, 1, 300, none, none⟩ 5 100 ⟨[], 1⟩).2 (by decide)⟩

/-- Helper: updating the first row matched by the ownership filter keeps
the updated row in the table. -/
lemma set_first_matching_mem (appointment_id user_id : Int)
    (f : Appointment → Appointment) (l : List Appointment) (a : Appointment)
    (h : l.find?
        (fun x => x.appointment_id == appointment_id && x.user_id == user_id)
      = some a) :
    f a ∈ set_first_matching appointment_id user_id f l := by
  induction l with
  | nil => cases h
  | cons b rest ih =>
    by_cases hb : (b.appointment_id == appointment_id && b.user_id == user_id) = true
    · have hfind : List.find?
          (fun x => x.appointment_id == appointment_id && x.user_id == user_id)
          (b :: rest) = some b :=
        List.find?_cons_of_pos
          (p := fun x => x.appointment_id == appointment_id && x.user_id == user_id)
          rest hb
      rw [hfind] at h
      cases h
      unfold set_first_matching
      rw [if_pos hb]
      exact List.mem_cons_self _ _
    · have hfind : List.find?
          (fun x => x.appointment_id == appointment_id && x.user_id == user_id)
          (b :: rest)
          = List.find?
            (fun x => x.appointment_id == appointment_id && x.user_id == user_id)
            rest :=
        List.find?_cons_of_neg
          (p := fun x => x.appointment_id == appointment_id && x.user_id == user_id)
          rest hb
      rw [hfind] at h
      unfold set_first_matching
      rw [if_neg hb]
      exact List.mem_cons_of_mem _ (ih h)

/-- C8 counterexample: cancelling appointment 1 (owned by patient 1) as
authenticated principal 2 returns the 404 response with the store
unchanged — byte-identical to cancelling a nonexistent appointment 77 —
so the failure is a NotFound, not an authorization failure (403)
distinguishable by the caller. -/
theorem C8_counterexample :
    cancel_appointment_ep 1 2 100
        ⟨[⟨1, 1, 9, 3, 500, "scheduled", none, none, 0, 0⟩], 2⟩
      = (.error ⟨404, "Appointment not found"⟩,
         ⟨[⟨1, 1, 9, 3, 500, "scheduled", none, none, 0, 0⟩], 2⟩)
    ∧ cancel_appointment_ep 77 2 100
        ⟨[⟨1, 1, 9, 3, 500, "scheduled", none, none, 0, 0⟩], 2⟩
      = (.error ⟨404, "Appointment not found"⟩,
         ⟨[⟨1, 1, 9, 3, 500, "scheduled", none, none, 0, 0⟩], 2⟩) := ⟨rfl, rfl⟩

/-- C8 amended: a cancel by any principal other than the owning patient
fails — as a 404 NotFound, indistinguishable from a missing appointment,
rather than a distinct authorization failure — leaving the store (hence
every status) unchanged; the owning patient's cancel returns the
appointment with status transitioned to `"cancelled"`, and the cancelled
row is in the resulting store. -/
theorem C8_cancel_ownership (appointment_id uid now : Int) (db : SchedDB) :
    ((∀ a ∈ db.appointments, a.appointment_id = appointment_id → a.user_id ≠ uid) →
      cancel_appointment_ep appointment_id uid now db
        = (.error ⟨404, "Appointment not found"⟩, db))
    ∧ (∀ a, get_appointment_by_id db appointment_id uid = some a →
        (cancel_appointment_ep appointment_id uid now db).1
          = .ok { a with status := "cancelled", updated_at := now }
        ∧ { a with status := "cancelled", updated_at := now }
            ∈ (cancel_appointment_ep appointment_id uid now db).2.appointments) := by
  constructor
  · intro h
    have hnone : get_appointment_by_id db appointment_id uid = none := by
      unfold get_appointment_by_id
      refine List.find?_eq_none.mpr ?_
      intro x hx
      simp only [Bool.and_eq_true, beq_iff_eq, not_and]
      exact h x hx
    unfold cancel_appointment_ep crud_cancel_appointment
    rw [hnone]
  · intro a ha
    have ha2 := ha
    unfold get_appointment_by_id at ha2
    unfold cancel_appointment_ep crud_cancel_appointment
    rw [ha]
    exact ⟨rfl, set_first_matching_mem appointment_id uid _ db.appointments a ha2⟩

/-- Witness for C8 amended: principal 2 cannot cancel patient 1's
appointment (unchanged 404); patient 1's own cancel yields the cancelled
row. -/
theorem C8_cancel_ownership_witness :
    cancel_appointment_ep 1 2 100
        ⟨[⟨1, 1, 9, 3, 500, "scheduled", none, none, 0, 0⟩], 2⟩
      = (.error ⟨404, "Appointment not found"⟩,
         ⟨[⟨1, 1, 9, 3, 500, "scheduled", none, none, 0, 0⟩], 2⟩)
    ∧ (cancel_appointment_ep 1 1 100
          ⟨[⟨1, 1, 9, 3, 500, "scheduled", none, none, 0, 0⟩], 2⟩).1
        = .ok ⟨1, 1, 9, 3, 500, "cancelled", none, none, 0, 100⟩
    ∧ (⟨1, 1, 9, 3, 500, "cancelled", none, none, 0, 100⟩ : Appointment)
        ∈ (cancel_appointment_ep 1 1 100
            ⟨[⟨1, 1, 9, 3, 500, "scheduled", none, none, 0, 0⟩], 2⟩).2.appointments :=
  ⟨(C8_cancel_ownership 1 2 100
      ⟨[⟨1, 1, 9, 3, 500, "scheduled", none, none, 0, 0⟩], 2⟩).1 (by decide),
   (C8_cancel_ownership 1 1 100
      ⟨[⟨1, 1, 9, 3, 500, "scheduled", none, none, 0, 0⟩], 2⟩).2
     ⟨1, 1, 9, 3, 500, "scheduled", none, none, 0, 0⟩ rfl⟩

/-- C9: the doctor-appointments endpoint answers identically for any two
authenticated principals over the same store — the returned rows (which
carry the patients' `user_id`, `reason_for_visit` and `patient_notes`)
depend only on `doctor_id`, the filters and the store, never on the
caller's identity. -/
theorem C9_doctor_schedule_noninterference (secret : String) (now : Int)
    (t1 t2 : Jwt) (u1 u2 : Int)
    (h1 : authenticate secret now t1 = .ok u1)
    (h2 : authenticate secret now t2 = .ok u2)
    (doctor_id : Int) (date : Option Int) (status : Option String) (db : SchedDB) :
    get_doctor_appointments_request secret now t1 doctor_id date status db
      = get_doctor_appointments_request secret now t2 doctor_id date status db
    ∧ get_doctor_appointments_request secret now t1 doctor_id date status db
      = .ok (crud_get_doctor_appointments db doctor_id date status) := by
  unfold get_doctor_appointments_request
  rw [h1, h2]
  exact ⟨rfl, rfl⟩

/-- Witness for C9: two distinct authenticated principals, same answer. -/
theorem C9_doctor_schedule_noninterference_witness :
    get_doctor_appointments_request "k" 100
        ⟨⟨some "a", some 7, some 200⟩, "k", "HS256"⟩ 3 none none
        ⟨[⟨1, 1, 3, 4, 500, "scheduled", none, none, 0, 0⟩], 2⟩
      = get_doctor_appointments_request "k" 100
          ⟨⟨some "b", some 8, some 300⟩, "k", "HS256"⟩ 3 none none
          ⟨[⟨1, 1, 3, 4, 500, "scheduled", none, none, 0, 0⟩], 2⟩
    ∧ get_doctor_appointments_request "k" 100
        ⟨⟨some "a", some 7, some 200⟩, "k", "HS256"⟩ 3 none none
        ⟨[⟨1, 1, 3, 4, 500, "scheduled", none, none, 0, 0⟩], 2⟩
      = .ok (crud_get_doctor_appointments
          ⟨[⟨1, 1, 3, 4, 500, "scheduled", none, none, 0, 0⟩], 2⟩ 3 none none) :=
  C9_doctor_schedule_noninterference "k" 100
    ⟨⟨some "a", some 7, some 200⟩, "k", "HS256"⟩
    ⟨⟨some "b", some 8, some 300⟩, "k", "HS256"⟩ 7 8 rfl rfl 3 none none
    ⟨[⟨1, 1, 3, 4, 500, "scheduled", none, none, 0, 0⟩], 2⟩

end Seha
